import Mathlib

/-!
Verification of the event-to-operation reconciliation core of
`sync_manager.py` (local-to-remote file sync via filesystem events).

The embedding models:
  * POSIX path values as produced by Python `pathlib.PurePosixPath`
    (`PyPath`): a flag for absoluteness plus the list of components,
    where parsing drops empty and single-dot components but keeps `..`
    (pathlib is purely lexical and never resolves `..`);
  * `PurePosixPath.relative_to`, which succeeds exactly when the other
    path is a lexical prefix (same anchor, component-list prefix) and
    otherwise raises `ValueError` carrying both paths;
  * the `MockFTPSync` transport recorder with its `operations` list,
    including both the earlier (shadowed) and the later (effective)
    definitions of `delete_file` / `create_remote_directory`;
  * the `SyncHandler` callbacks `on_created`, `on_modified`,
    `on_deleted`, `on_moved`, and the watchdog-style dispatch over
    event kinds, where event kinds outside the four handled ones hit
    the base-class no-op handlers.

Python strings are modelled as their character lists (`PyStr`), so all
string manipulation is by structural recursion on lists.
-/

set_option autoImplicit false

/-- A Python string, modelled as its list of characters. -/
abbrev PyStr := List Char

/-- Split a string at every slash, keeping empty pieces: the character
level counterpart of Python `str.split` on a single slash.
`splitOnSlash [] = [[]]` mirrors Python returning one empty piece for
the empty string. -/
def splitOnSlash : PyStr → List PyStr
  | [] => [[]]
  | c :: rest =>
    match splitOnSlash rest with
    | [] => []
    | piece :: more =>
      if c = '/' then [] :: piece :: more else (c :: piece) :: more

/-- Join pieces with a slash between consecutive pieces (the character
level counterpart of joining path components). -/
def joinSlash : List PyStr → PyStr
  | [] => []
  | [p] => p
  | p :: q :: rest => p ++ '/' :: joinSlash (q :: rest)

/-- A `pathlib.PurePosixPath` value: whether the path is anchored at the
root, and its components.  Parsing normalizes away empty and `.`
components but keeps `..` components, exactly as pathlib does. -/
structure PyPath where
  absolute : Bool
  parts : List PyStr
deriving DecidableEq

/-- `pathlib.Path(s)` on a string `s`: the anchor is a leading slash, and
the components are the slash-separated pieces with empty and `.` pieces
dropped (pathlib keeps `..`). -/
def parsePath (s : PyStr) : PyPath :=
  { absolute := s.head? = some '/',
    parts := (splitOnSlash s).filter (fun c => decide (c ≠ [] ∧ c ≠ ['.'])) }

/-- `str(p)` for a pathlib path value: `/`-joined components after the
anchor; a relative path with no components prints as `.`. -/
def PyPath.toStr (p : PyPath) : PyStr :=
  if p.absolute then '/' :: joinSlash p.parts
  else if p.parts = [] then ['.']
  else joinSlash p.parts

/-- The Python exception raised by `PurePosixPath.relative_to` when the
receiver is not in the subtree of the argument: a `ValueError` whose
message names the offending path and the root.  This is the error the
spec calls `PathOutsideRootError`. -/
inductive PyError where
  | valueError (path : PyPath) (root : PyPath)
deriving DecidableEq

/-- `PurePosixPath.relative_to`: purely lexical.  It succeeds exactly
when the anchors agree and the root components are a prefix of the
receiver components, returning the relative path made of the remaining
components; otherwise it raises `ValueError`.  `..` components are never
resolved. -/
def PyPath.relative_to (p root : PyPath) : Except PyError PyPath :=
  if p.absolute = root.absolute ∧ root.parts <+: p.parts then
    .ok { absolute := false, parts := p.parts.drop root.parts.length }
  else .error (.valueError p root)

/-- The lexical success condition of `relative_to`: same anchor and the
root components are a prefix of the path components (equality included). -/
def PyPath.isUnder (p root : PyPath) : Prop :=
  p.absolute = root.absolute ∧ root.parts <+: p.parts

instance (p root : PyPath) : Decidable (p.isUnder root) := by
  unfold PyPath.isUnder; infer_instance

/-- Strictly under: under the root and not equal to it (at least one
component beyond the root). -/
def PyPath.strictlyUnder (p root : PyPath) : Prop :=
  p.isUnder root ∧ root.parts ≠ p.parts

instance (p root : PyPath) : Decidable (p.strictlyUnder root) := by
  unfold PyPath.strictlyUnder; infer_instance

/-- pathlib `/` (joinpath) of a base path with a second path: a relative
right operand appends its components, an absolute right operand replaces
the base. -/
def PyPath.join (r q : PyPath) : PyPath :=
  if q.absolute then q
  else { absolute := r.absolute, parts := r.parts ++ q.parts }

/-- One recorded operation dict appended to `MockFTPSync.operations`. -/
inductive Operation where
  | upload (filePathLocal : PyStr) (remote : PyStr)
  | delete (remote : PyStr)
  | create_dir (remote : PyStr)
deriving DecidableEq

/-- The remote path field of a recorded operation. -/
def Operation.remote : Operation → PyStr
  | .upload _ r => r
  | .delete r => r
  | .create_dir r => r

/-- One `logging.info` record emitted by a `MockFTPSync` method. -/
inductive LogEntry where
  | uploaded (p : PyStr)
  | deleted (p : PyStr)
  | createdDirectory (p : PyStr)
deriving DecidableEq

/-- The `MockFTPSync` object: `local_path` is stored as a `Path`,
`remote_path` as a plain string, `operations` is the list of recorded
operation dicts. -/
structure MockFTPSync where
  local_path : PyPath
  remote_path : PyStr
  operations : List Operation
deriving DecidableEq

/-- A Python argument that is either a string or a `Path` value;
`upload_file` and the shadowed first definitions accept both and convert
strings with `Path(...)`. -/
inductive StrOrPath where
  | str (s : PyStr)
  | path (p : PyPath)

/-- The `Path` value a `MockFTPSync` method works with after its
`isinstance(arg, str)` conversion. -/
def StrOrPath.toPath : StrOrPath → PyPath
  | .str s => parsePath s
  | .path p => p

/-- `MockFTPSync.upload_file` (lines 43-54): convert a string argument
with `Path`, relativize against `local_path`, then append the upload
dict (local stored as `str(local_file)`) and log.  The `ValueError` from
`relative_to` propagates before anything is appended. -/
def MockFTPSync.upload_file (m : MockFTPSync) (local_file : StrOrPath) :
    Except PyError (MockFTPSync × LogEntry) :=
  let lf := local_file.toPath
  match lf.relative_to m.local_path with
  | .error e => .error e
  | .ok rel =>
    let remote_file := rel.toStr
    .ok ({ m with operations :=
            m.operations ++ [.upload lf.toStr remote_file] },
         .uploaded lf.toStr)

/-- The FIRST definition of `MockFTPSync.delete_file` (lines 56-66),
which relativizes its argument against `local_path` before recording.
It is shadowed by the later definition and never the one invoked. -/
def MockFTPSync.delete_file_v1 (m : MockFTPSync) (remote_file : StrOrPath) :
    Except PyError (MockFTPSync × LogEntry) :=
  let rf := remote_file.toPath
  match rf.relative_to m.local_path with
  | .error e => .error e
  | .ok rel =>
    let remote := rel.toStr
    .ok ({ m with operations := m.operations ++ [.delete remote] },
         .deleted remote)

/-- The FIRST definition of `MockFTPSync.create_remote_directory`
(lines 68-78), which relativizes its argument against `local_path`
before recording.  Shadowed by the later definition. -/
def MockFTPSync.create_remote_directory_v1 (m : MockFTPSync)
    (remote_dir : StrOrPath) : Except PyError (MockFTPSync × LogEntry) :=
  let rd := remote_dir.toPath
  match rd.relative_to m.local_path with
  | .error e => .error e
  | .ok rel =>
    let remote := rel.toStr
    .ok ({ m with operations := m.operations ++ [.create_dir remote] },
         .createdDirectory remote)

/-- The SECOND (effective) definition of `MockFTPSync.delete_file`
(lines 80-86): append the delete dict with the argument recorded
verbatim, then log.  In a Python class body the later `def` wins, so
this is the method actually bound to the name. -/
def MockFTPSync.delete_file (m : MockFTPSync) (remote_file : PyStr) :
    MockFTPSync × LogEntry :=
  ({ m with operations := m.operations ++ [.delete remote_file] },
   .deleted remote_file)

/-- The SECOND (effective) definition of
`MockFTPSync.create_remote_directory` (lines 88-94): append the
create-dir dict with the argument recorded verbatim, then log. -/
def MockFTPSync.create_remote_directory (m : MockFTPSync)
    (remote_dir : PyStr) : MockFTPSync × LogEntry :=
  ({ m with operations := m.operations ++ [.create_dir remote_dir] },
   .createdDirectory remote_dir)

/-- The kind of a watchdog filesystem event.  `created`, `modified`,
`deleted` and `moved` dispatch to the overridden handler methods; any
other watchdog event kind (for example a file-closed notification)
dispatches to a base-class handler that does nothing, modelled by
`other`. -/
inductive EventKind where
  | created
  | modified
  | deleted
  | moved
  | other
deriving DecidableEq

/-- A raw watchdog event as seen by the handler: kind, directory flag,
source path string and (meaningful only for `moved`) destination path
string. -/
structure Event where
  kind : EventKind
  is_directory : Bool
  src_path : PyStr
  dest_path : PyStr
deriving DecidableEq

/-- The observable outcome of running one handler callback on one event:
the updated `MockFTPSync` object (operations appended so far, kept even
when an exception escapes mid-handler), the `logging.info` records
emitted, and the propagated Python exception when one was raised. -/
structure HandlerResult where
  sync : MockFTPSync
  logs : List LogEntry
  error : Option PyError
deriving DecidableEq

/-- `SyncHandler.on_created` (lines 108-114): directories are
relativized in the handler and passed to `create_remote_directory`;
files are passed as raw strings to `upload_file`. -/
def on_created (m : MockFTPSync) (ev : Event) : HandlerResult :=
  if ev.is_directory then
    match (parsePath ev.src_path).relative_to m.local_path with
    | .error e => ⟨m, [], some e⟩
    | .ok rel =>
      let relative_path := rel.toStr
      let r := m.create_remote_directory relative_path
      ⟨r.1, [r.2], none⟩
  else
    match m.upload_file (.str ev.src_path) with
    | .error e => ⟨m, [], some e⟩
    | .ok r => ⟨r.1, [r.2], none⟩

/-- `SyncHandler.on_modified` (lines 116-119): files are uploaded,
directory modifications are ignored. -/
def on_modified (m : MockFTPSync) (ev : Event) : HandlerResult :=
  if ev.is_directory then ⟨m, [], none⟩
  else
    match m.upload_file (.str ev.src_path) with
    | .error e => ⟨m, [], some e⟩
    | .ok r => ⟨r.1, [r.2], none⟩

/-- `SyncHandler.on_deleted` (lines 121-128): the directory branch is a
bare `pass` (no operation, no log); the file branch relativizes in the
handler and passes the relative string to the effective `delete_file`. -/
def on_deleted (m : MockFTPSync) (ev : Event) : HandlerResult :=
  if ev.is_directory then ⟨m, [], none⟩
  else
    match (parsePath ev.src_path).relative_to m.local_path with
    | .error e => ⟨m, [], some e⟩
    | .ok rel =>
      let r := m.delete_file rel.toStr
      ⟨r.1, [r.2], none⟩

/-- `SyncHandler.on_moved` (lines 130-144): both relative paths are
computed up front (so a `ValueError` on either aborts the handler before
anything is recorded); then delete-old plus create-dir (directories) or
delete-old plus upload of the raw destination string (files).  If
`upload_file` raised after the delete was recorded, the delete would
remain recorded, mirroring Python state mutation. -/
def on_moved (m : MockFTPSync) (ev : Event) : HandlerResult :=
  match (parsePath ev.src_path).relative_to m.local_path with
  | .error e => ⟨m, [], some e⟩
  | .ok srcRel =>
    match (parsePath ev.dest_path).relative_to m.local_path with
    | .error e => ⟨m, [], some e⟩
    | .ok destRel =>
      let src_relative := srcRel.toStr
      let dest_relative := destRel.toStr
      if ev.is_directory then
        let r1 := m.delete_file src_relative
        let r2 := r1.1.create_remote_directory dest_relative
        ⟨r2.1, [r1.2, r2.2], none⟩
      else
        let r1 := m.delete_file src_relative
        match r1.1.upload_file (.str ev.dest_path) with
        | .error e => ⟨r1.1, [r1.2], some e⟩
        | .ok r2 => ⟨r2.1, [r1.2, r2.2], none⟩

/-- Watchdog event dispatch over a `SyncHandler`: the four overridden
callbacks handle their kinds; every other kind reaches only base-class
no-op handlers. -/
def dispatch (m : MockFTPSync) (ev : Event) : HandlerResult :=
  match ev.kind with
  | .created => on_created m ev
  | .modified => on_modified m ev
  | .deleted => on_deleted m ev
  | .moved => on_moved m ev
  | .other => ⟨m, [], none⟩

/-- The operations a dispatch appended beyond those already recorded. -/
def emittedOps (m : MockFTPSync) (ev : Event) : List Operation :=
  (dispatch m ev).sync.operations.drop m.operations.length

/-- A string starts with the path separator. -/
def startsWithSlash (s : PyStr) : Prop := s.head? = some '/'

instance (s : PyStr) : Decidable (startsWithSlash s) := by
  unfold startsWithSlash; infer_instance

/-- A string contains a `..` segment between separators. -/
def hasDotDotSegment (s : PyStr) : Prop := ['.', '.'] ∈ splitOnSlash s

instance (s : PyStr) : Decidable (hasDotDotSegment s) := by
  unfold hasDotDotSegment; infer_instance

/-- A root-relative operation target: not absolute and free of `..`
segments. -/
def cleanRel (s : PyStr) : Prop := ¬ startsWithSlash s ∧ ¬ hasDotDotSegment s

instance (s : PyStr) : Decidable (cleanRel s) := by
  unfold cleanRel; infer_instance

/-- A path string is in pathlib normal form: printing its parse gives
the string back. -/
def normalizedPath (s : PyStr) : Prop := (parsePath s).toStr = s

instance (s : PyStr) : Decidable (normalizedPath s) := by
  unfold normalizedPath; infer_instance

instance {ε α : Type} [DecidableEq ε] [DecidableEq α] :
    DecidableEq (Except ε α) := fun a b =>
  match a, b with
  | .ok x, .ok y =>
    if h : x = y then .isTrue (by rw [h])
    else .isFalse (fun hc => h (Except.ok.inj hc))
  | .error x, .error y =>
    if h : x = y then .isTrue (by rw [h])
    else .isFalse (fun hc => h (Except.error.inj hc))
  | .ok _, .error _ => .isFalse (fun hc => Except.noConfusion hc)
  | .error _, .ok _ => .isFalse (fun hc => Except.noConfusion hc)

/-- A sample watch root used by concrete witnesses and counterexamples. -/
def sampleRoot : PyPath := parsePath ("/r".data)

/-- A sample `MockFTPSync` rooted at `sampleRoot` with no recorded
operations yet. -/
def sampleSync : MockFTPSync :=
  { local_path := sampleRoot, remote_path := "rp".data, operations := [] }

/-! ## Helper lemmas about the path model -/

theorem splitOnSlash_ne_nil (s : PyStr) : splitOnSlash s ≠ [] := by
  induction s with
  | nil => simp [splitOnSlash]
  | cons c rest ih =>
    cases h : splitOnSlash rest with
    | nil => exact absurd h ih
    | cons piece more =>
      simp only [splitOnSlash, h]
      split <;> simp

theorem not_slash_mem_of_mem_splitOnSlash {s t : PyStr}
    (h : t ∈ splitOnSlash s) : '/' ∉ t := by
  induction s generalizing t with
  | nil =>
    simp [splitOnSlash] at h
    subst h; simp
  | cons c rest ih =>
    cases hs : splitOnSlash rest with
    | nil => exact absurd hs (splitOnSlash_ne_nil rest)
    | cons piece more =>
      simp only [splitOnSlash, hs] at h
      by_cases hc : c = '/'
      · rw [if_pos hc] at h
        rcases List.mem_cons.mp h with h1 | h1
        · subst h1; simp
        · exact ih (hs ▸ h1)
      · rw [if_neg hc] at h
        rcases List.mem_cons.mp h with h1 | h1
        · subst h1
          intro hmem
          rcases List.mem_cons.mp hmem with h2 | h2
          · exact hc h2.symm
          · exact ih (hs ▸ List.mem_cons_self piece more) h2
        · exact ih (hs ▸ List.mem_cons_of_mem piece h1)

theorem splitOnSlash_append_slash (p s : PyStr) (hp : '/' ∉ p) :
    splitOnSlash (p ++ '/' :: s) = p :: splitOnSlash s := by
  induction p with
  | nil =>
    cases h : splitOnSlash s with
    | nil => exact absurd h (splitOnSlash_ne_nil s)
    | cons piece more =>
      rw [List.nil_append]
      simp [splitOnSlash, h]
  | cons c p2 ih =>
    have hc : ¬ c = '/' := fun h => hp (h ▸ List.mem_cons_self c p2)
    have hp2 : '/' ∉ p2 := fun h => hp (List.mem_cons_of_mem c h)
    rw [List.cons_append]
    simp only [splitOnSlash, ih hp2]
    rw [if_neg hc]

theorem splitOnSlash_eq_self {t : PyStr} (ht : '/' ∉ t) :
    splitOnSlash t = [t] := by
  induction t with
  | nil => rfl
  | cons c t2 ih =>
    have hc : ¬ c = '/' := fun h => ht (h ▸ List.mem_cons_self c t2)
    have ht2 : '/' ∉ t2 := fun h => ht (List.mem_cons_of_mem c h)
    simp only [splitOnSlash, ih ht2]
    rw [if_neg hc]

theorem splitOnSlash_joinSlash (P : List PyStr) (h : ∀ t ∈ P, '/' ∉ t)
    (hne : P ≠ []) : splitOnSlash (joinSlash P) = P := by
  induction P with
  | nil => exact absurd rfl hne
  | cons t rest ih =>
    cases rest with
    | nil => rw [joinSlash]; exact splitOnSlash_eq_self (h t (by simp))
    | cons u rest2 =>
      rw [joinSlash, splitOnSlash_append_slash t _ (h t (by simp)),
          ih (fun x hx => h x (List.mem_cons_of_mem _ hx)) (by simp)]

theorem head_joinSlash (t : PyStr) (rest : List PyStr) (ht : t ≠ []) :
    (joinSlash (t :: rest)).head? = t.head? := by
  cases rest with
  | nil => rw [joinSlash]
  | cons u r =>
    rw [joinSlash]
    cases t with
    | nil => exact absurd rfl ht
    | cons c t2 => rfl

theorem parsePath_parts_prop {s t : PyStr} (h : t ∈ (parsePath s).parts) :
    t ∈ splitOnSlash s ∧ t ≠ [] ∧ t ≠ ['.'] := by
  simp only [parsePath] at h
  have h2 := List.mem_filter.mp h
  exact ⟨h2.1, of_decide_eq_true h2.2⟩

theorem relative_to_eq_ok {p root q : PyPath}
    (h : p.relative_to root = .ok q) :
    p.isUnder root ∧
      q = { absolute := false, parts := p.parts.drop root.parts.length } := by
  unfold PyPath.relative_to at h
  split at h
  · next hc => exact ⟨hc, (Except.ok.inj h).symm⟩
  · exact absurd h (by simp)

theorem relative_to_eq_error {p root : PyPath} {e : PyError}
    (h : p.relative_to root = .error e) :
    e = .valueError p root ∧ ¬ p.isUnder root := by
  unfold PyPath.relative_to at h
  split at h
  · exact absurd h (by simp)
  · next hc => exact ⟨(Except.error.inj h).symm, hc⟩

theorem relative_to_of_isUnder {p root : PyPath} (h : p.isUnder root) :
    p.relative_to root =
      .ok { absolute := false, parts := p.parts.drop root.parts.length } := by
  unfold PyPath.isUnder at h
  unfold PyPath.relative_to
  rw [if_pos h]

theorem relative_to_of_not_isUnder {p root : PyPath} (h : ¬ p.isUnder root) :
    p.relative_to root = .error (.valueError p root) := by
  unfold PyPath.isUnder at h
  unfold PyPath.relative_to
  rw [if_neg h]

theorem relParts_good {s : PyStr} {root rel : PyPath}
    (h : (parsePath s).relative_to root = .ok rel) :
    (∀ t ∈ rel.parts, t ≠ [] ∧ '/' ∉ t) ∧
      (['.', '.'] ∉ splitOnSlash s → ['.', '.'] ∉ rel.parts) := by
  obtain ⟨hu, rfl⟩ := relative_to_eq_ok h
  constructor
  · intro t ht
    obtain ⟨h1, h2, _⟩ := parsePath_parts_prop (List.mem_of_mem_drop ht)
    exact ⟨h2, not_slash_mem_of_mem_splitOnSlash h1⟩
  · intro hdd hmem
    exact hdd (parsePath_parts_prop (List.mem_of_mem_drop hmem)).1

theorem noLeadSlash_toStr_rel (P : List PyStr)
    (h : ∀ t ∈ P, t ≠ [] ∧ '/' ∉ t) :
    ¬ startsWithSlash (PyPath.toStr { absolute := false, parts := P }) := by
  cases P with
  | nil => decide
  | cons t rest =>
    have ht := h t (List.mem_cons_self t rest)
    have htoStr : PyPath.toStr { absolute := false, parts := t :: rest } =
        joinSlash (t :: rest) := by
      rw [PyPath.toStr]; simp
    rw [htoStr]
    intro hsw
    rw [startsWithSlash, head_joinSlash t rest ht.1] at hsw
    cases t with
    | nil => exact ht.1 rfl
    | cons c t2 =>
      have hc : c = '/' := by simpa using hsw
      exact ht.2 (hc ▸ List.mem_cons_self c t2)

theorem noDotDot_toStr_rel (P : List PyStr)
    (h : ∀ t ∈ P, '/' ∉ t) (hdd : ['.', '.'] ∉ P) :
    ¬ hasDotDotSegment (PyPath.toStr { absolute := false, parts := P }) := by
  cases P with
  | nil => decide
  | cons t rest =>
    have htoStr : PyPath.toStr { absolute := false, parts := t :: rest } =
        joinSlash (t :: rest) := by
      rw [PyPath.toStr]; simp
    rw [htoStr]
    intro hdds
    rw [hasDotDotSegment,
        splitOnSlash_joinSlash (t :: rest) h (by simp)] at hdds
    exact hdd hdds

theorem remote_clean_of_relative_to {s : PyStr} {root rel : PyPath}
    (h : (parsePath s).relative_to root = .ok rel) :
    ¬ startsWithSlash rel.toStr ∧
      (['.', '.'] ∉ splitOnSlash s → ¬ hasDotDotSegment rel.toStr) := by
  obtain ⟨hgood, hdd⟩ := relParts_good h
  obtain ⟨hu, rfl⟩ := relative_to_eq_ok h
  exact ⟨noLeadSlash_toStr_rel _ hgood,
    fun hnd => noDotDot_toStr_rel _ (fun t ht => (hgood t ht).2) (hdd hnd)⟩

/-! ## Claim theorems -/

/-- C1: for every Moved event with `is_directory = false` whose source
and destination paths are both under the watch root, dispatch emits
exactly two operations in order: first the delete of the resolved source
path, then the upload of the destination path with its resolved remote
path. -/
theorem moved_file_emits_delete_then_upload (m : MockFTPSync) (ev : Event)
    (hk : ev.kind = .moved) (hf : ev.is_directory = false)
    (hs : (parsePath ev.src_path).isUnder m.local_path)
    (hd : (parsePath ev.dest_path).isUnder m.local_path)
    (hn : normalizedPath ev.dest_path) :
    ∃ srcRel destRel : PyPath,
      (parsePath ev.src_path).relative_to m.local_path = .ok srcRel ∧
      (parsePath ev.dest_path).relative_to m.local_path = .ok destRel ∧
      dispatch m ev =
        ⟨{ m with operations := m.operations ++
             [.delete srcRel.toStr, .upload ev.dest_path destRel.toStr] },
         [.deleted srcRel.toStr, .uploaded ev.dest_path], none⟩ := by
  refine ⟨_, _, relative_to_of_isUnder hs, relative_to_of_isUnder hd, ?_⟩
  have hn2 : (parsePath ev.dest_path).toStr = ev.dest_path := hn
  unfold dispatch
  rw [hk]
  unfold on_moved
  rw [relative_to_of_isUnder hs, relative_to_of_isUnder hd, hf]
  unfold MockFTPSync.delete_file MockFTPSync.upload_file
  simp only [StrOrPath.toPath]
  rw [relative_to_of_isUnder hd]
  simp [hn2, List.append_assoc]

/-- C1 witness: the sample sync at root `/r` with a concrete Moved file
event from `/r/old.txt` to `/r/sub/new.txt`. -/
theorem moved_file_emits_delete_then_upload_w :
    ∃ srcRel destRel : PyPath,
      (parsePath ("/r/old.txt".data)).relative_to sampleRoot = .ok srcRel ∧
      (parsePath ("/r/sub/new.txt".data)).relative_to sampleRoot =
        .ok destRel ∧
      dispatch sampleSync ⟨.moved, false, "/r/old.txt".data,
          "/r/sub/new.txt".data⟩ =
        ⟨{ sampleSync with operations := sampleSync.operations ++
             [.delete srcRel.toStr,
              .upload ("/r/sub/new.txt".data) destRel.toStr] },
         [.deleted srcRel.toStr, .uploaded ("/r/sub/new.txt".data)],
         none⟩ :=
  moved_file_emits_delete_then_upload sampleSync
    ⟨.moved, false, "/r/old.txt".data, "/r/sub/new.txt".data⟩
    rfl rfl (by decide) (by decide) (by decide)

/-- C4: for every Created event whose source path is under the watch
root, dispatch emits exactly one operation: an upload of the source for
a file, a create-directory of the resolved source for a directory. -/
theorem created_event_emits_single_op (m : MockFTPSync) (ev : Event)
    (hk : ev.kind = .created)
    (hs : (parsePath ev.src_path).isUnder m.local_path)
    (hn : normalizedPath ev.src_path) :
    ∃ rel : PyPath,
      (parsePath ev.src_path).relative_to m.local_path = .ok rel ∧
      dispatch m ev =
        if ev.is_directory then
          ⟨{ m with operations := m.operations ++ [.create_dir rel.toStr] },
           [.createdDirectory rel.toStr], none⟩
        else
          ⟨{ m with operations := m.operations ++
               [.upload ev.src_path rel.toStr] },
           [.uploaded ev.src_path], none⟩ := by
  refine ⟨_, relative_to_of_isUnder hs, ?_⟩
  have hn2 : (parsePath ev.src_path).toStr = ev.src_path := hn
  unfold dispatch
  rw [hk]
  unfold on_created
  cases hdir : ev.is_directory with
  | true =>
    rw [if_pos rfl, if_pos rfl, relative_to_of_isUnder hs]
    rfl
  | false =>
    rw [if_neg (by simp), if_neg (by simp)]
    unfold MockFTPSync.upload_file
    simp only [StrOrPath.toPath]
    rw [relative_to_of_isUnder hs]
    simp [hn2]

/-- C4 witness: a concrete Created file event at `/r/a/b.txt` under the
sample root. -/
theorem created_event_emits_single_op_w :
    ∃ rel : PyPath,
      (parsePath ("/r/a/b.txt".data)).relative_to sampleRoot = .ok rel ∧
      dispatch sampleSync ⟨.created, false, "/r/a/b.txt".data, []⟩ =
        if (false : Bool) then
          ⟨{ sampleSync with operations := sampleSync.operations ++
               [.create_dir rel.toStr] },
           [.createdDirectory rel.toStr], none⟩
        else
          ⟨{ sampleSync with operations := sampleSync.operations ++
               [.upload ("/r/a/b.txt".data) rel.toStr] },
           [.uploaded ("/r/a/b.txt".data)], none⟩ :=
  created_event_emits_single_op sampleSync
    ⟨.created, false, "/r/a/b.txt".data, []⟩ rfl (by decide) (by decide)

/-- C5 counterexample: a Deleted directory event and an event of an
unhandled kind produce literally identical observable outcomes (no
operation appended, no log record, no error), so the absence of
operations for a deleted directory is not distinguishable from the
nothing-happened case. -/
theorem deleted_dir_counterexample :
    dispatch sampleSync ⟨.deleted, true, "/r/sub".data, []⟩ =
      ⟨sampleSync, [], none⟩ ∧
    dispatch sampleSync ⟨.other, true, "/r/sub".data, []⟩ =
      ⟨sampleSync, [], none⟩ ∧
    dispatch sampleSync ⟨.deleted, true, "/r/sub".data, []⟩ =
      dispatch sampleSync ⟨.other, true, "/r/sub".data, []⟩ :=
  ⟨by decide, by decide, by decide⟩

/-- C5 amended: every Deleted directory event yields zero operations,
zero log records and no error, and every event of an unhandled kind
yields that very same outcome, so nothing in the observable behaviour
distinguishes the two cases. -/
theorem deleted_dir_emits_nothing_silently (m : MockFTPSync) (ev : Event)
    (hk : ev.kind = .deleted) (hdir : ev.is_directory = true) :
    dispatch m ev = ⟨m, [], none⟩ ∧
    ∀ ev2 : Event, ev2.kind = .other → dispatch m ev2 = ⟨m, [], none⟩ := by
  constructor
  · simp [dispatch, on_deleted, hk, hdir]
  · intro ev2 h2
    simp [dispatch, h2]

/-- C5 amended witness: the concrete Deleted directory event at
`/r/sub`. -/
theorem deleted_dir_emits_nothing_silently_w :
    (Event.mk .deleted true ("/r/sub".data) []).kind = .deleted ∧
    (Event.mk .deleted true ("/r/sub".data) []).is_directory = true ∧
    (dispatch sampleSync ⟨.deleted, true, "/r/sub".data, []⟩ =
        ⟨sampleSync, [], none⟩ ∧
      ∀ ev2 : Event, ev2.kind = .other →
        dispatch sampleSync ev2 = ⟨sampleSync, [], none⟩) :=
  ⟨rfl, rfl,
   deleted_dir_emits_nothing_silently sampleSync
     ⟨.deleted, true, "/r/sub".data, []⟩ rfl rfl⟩

/-- C6 counterexample: `/a/b/../c` is strictly under `/a` in the lexical
sense the code implements (and denotes `/a/c`, a genuine descendant of
`/a`), yet `relative_to` keeps the `..` component, so the resolved
relative path is not free of `..` segments. -/
theorem resolve_round_trip_counterexample :
    (parsePath ("/a/b/../c".data)).absolute = true ∧
    (parsePath ("/a".data)).absolute = true ∧
    (parsePath ("/a/b/../c".data)).strictlyUnder (parsePath ("/a".data)) ∧
    (parsePath ("/a/b/../c".data)).relative_to (parsePath ("/a".data)) =
      .ok { absolute := false,
            parts := ["b".data, "..".data, "c".data] } ∧
    "..".data ∈ (["b".data, "..".data, "c".data] : List PyStr) ∧
    hasDotDotSegment
      (PyPath.toStr { absolute := false,
                      parts := ["b".data, "..".data, "c".data] }) :=
  ⟨by decide, by decide, by decide, by decide, by decide, by decide⟩

/-- C6 amended: for absolute `p` strictly under absolute `r`, resolve
succeeds with a relative (non-anchored) path that joins back onto `r` to
give `p` again; the result is free of `..` components whenever `p`
itself is, but inherits any `..` components `p` contains. -/
theorem resolve_under_root_round_trip (p r : PyPath)
    (hp : p.absolute = true) (hr : r.absolute = true)
    (h : p.strictlyUnder r) :
    ∃ rel : PyPath,
      p.relative_to r = .ok rel ∧
      rel.absolute = false ∧
      (['.', '.'] ∉ p.parts → ['.', '.'] ∉ rel.parts) ∧
      r.join rel = p := by
  obtain ⟨hu, hne⟩ := h
  refine ⟨_, relative_to_of_isUnder hu, rfl, ?_, ?_⟩
  · intro hnd hmem
    exact hnd (List.mem_of_mem_drop hmem)
  · obtain ⟨t, ht⟩ := hu.2
    have hd : p.parts.drop r.parts.length = t := by
      rw [← ht, List.drop_left]
    unfold PyPath.join
    rw [if_neg (by simp)]
    have habs : r.absolute = p.absolute := hu.1.symm
    calc PyPath.mk r.absolute (r.parts ++ p.parts.drop r.parts.length)
        = PyPath.mk p.absolute p.parts := by rw [habs, hd, ht]
      _ = p := rfl

/-- C6 amended witness: `p = /a/x/y.txt` strictly under `r = /a`. -/
theorem resolve_under_root_round_trip_w :
    (parsePath ("/a/x/y.txt".data)).absolute = true ∧
    (parsePath ("/a".data)).absolute = true ∧
    (parsePath ("/a/x/y.txt".data)).strictlyUnder (parsePath ("/a".data)) ∧
    ∃ rel : PyPath,
      (parsePath ("/a/x/y.txt".data)).relative_to (parsePath ("/a".data)) =
        .ok rel ∧
      rel.absolute = false ∧
      (['.', '.'] ∉ (parsePath ("/a/x/y.txt".data)).parts →
        ['.', '.'] ∉ rel.parts) ∧
      (parsePath ("/a".data)).join rel = parsePath ("/a/x/y.txt".data) :=
  ⟨by decide, by decide, by decide,
   resolve_under_root_round_trip (parsePath ("/a/x/y.txt".data))
     (parsePath ("/a".data)) (by decide) (by decide) (by decide)⟩

/-- C7: for every absolute path `p` that is not under the absolute root
`r`, resolve (`relative_to`) fails with the path-outside-root error
(Python `ValueError`, the spec's `PathOutsideRootError`), carrying the
offending path and the root. -/
theorem resolve_outside_root_fails (p r : PyPath)
    (hp : p.absolute = true) (hr : r.absolute = true)
    (h : ¬ p.isUnder r) :
    p.relative_to r = .error (.valueError p r) :=
  relative_to_of_not_isUnder h

/-- C7 witness: `/zz/x.txt` is not under the sample root `/r`. -/
theorem resolve_outside_root_fails_w :
    (parsePath ("/zz/x.txt".data)).absolute = true ∧
    sampleRoot.absolute = true ∧
    ¬ (parsePath ("/zz/x.txt".data)).isUnder sampleRoot ∧
    (parsePath ("/zz/x.txt".data)).relative_to sampleRoot =
      .error (.valueError (parsePath ("/zz/x.txt".data)) sampleRoot) :=
  ⟨by decide, by decide, by decide,
   resolve_outside_root_fails (parsePath ("/zz/x.txt".data)) sampleRoot
     (by decide) (by decide) (by decide)⟩

/-- C8: resolving the watch root against itself is accepted (no error)
and yields the empty relative path (no components, not anchored); the
string form of that empty relative path is the single dot. -/
theorem resolve_root_yields_empty_relative (r : PyPath) :
    r.relative_to r = .ok { absolute := false, parts := [] } ∧
    PyPath.toStr { absolute := false, parts := [] } = ['.'] := by
  constructor
  · rw [relative_to_of_isUnder ⟨rfl, List.prefix_refl r.parts⟩]
    simp
  · decide

/-- C9: the later (effective) definitions of `delete_file` and
`create_remote_directory` record their argument verbatim as the remote
path with no relativization, while the shadowed first definitions
relativize against `local_path` and hence reject the root-relative
strings the handlers actually pass. -/
theorem effective_delete_and_mkdir_record_verbatim :
    (∀ (m : MockFTPSync) (s : PyStr),
       m.delete_file s =
         ({ m with operations := m.operations ++ [.delete s] },
          .deleted s) ∧
       m.create_remote_directory s =
         ({ m with operations := m.operations ++ [.create_dir s] },
          .createdDirectory s)) ∧
    sampleSync.delete_file_v1 (.str ("x.txt".data)) =
      .error (.valueError (parsePath ("x.txt".data)) sampleRoot) ∧
    sampleSync.create_remote_directory_v1 (.str ("sub".data)) =
      .error (.valueError (parsePath ("sub".data)) sampleRoot) :=
  ⟨fun m s => ⟨rfl, rfl⟩, by decide, by decide⟩

/-- C10: `upload_file` behaves identically on a string argument and on
the equivalent `Path` value; in both cases the recorded local field is
the string form of the path and the recorded remote field is the string
form of the path relativized against `local_path`. -/
theorem upload_file_string_and_path_agree (m : MockFTPSync) (s : PyStr)
    (h : (parsePath s).isUnder m.local_path) :
    m.upload_file (.str s) = m.upload_file (.path (parsePath s)) ∧
    m.upload_file (.str s) =
      .ok ({ m with operations := m.operations ++
              [.upload (parsePath s).toStr
                 (PyPath.toStr { absolute := false,
                                 parts := (parsePath s).parts.drop
                                   m.local_path.parts.length })] },
           .uploaded (parsePath s).toStr) := by
  refine ⟨rfl, ?_⟩
  unfold MockFTPSync.upload_file
  simp only [StrOrPath.toPath]
  rw [relative_to_of_isUnder h]

/-- C10 witness: uploading `/r/a/b.txt` under the sample root. -/
theorem upload_file_string_and_path_agree_w :
    (parsePath ("/r/a/b.txt".data)).isUnder sampleSync.local_path ∧
    (sampleSync.upload_file (.str ("/r/a/b.txt".data)) =
        sampleSync.upload_file (.path (parsePath ("/r/a/b.txt".data))) ∧
      sampleSync.upload_file (.str ("/r/a/b.txt".data)) =
        .ok ({ sampleSync with operations := sampleSync.operations ++
                [.upload (parsePath ("/r/a/b.txt".data)).toStr
                   (PyPath.toStr { absolute := false,
                                   parts :=
                                     (parsePath ("/r/a/b.txt".data)).parts.drop
                                       sampleSync.local_path.parts.length })] },
             .uploaded (parsePath ("/r/a/b.txt".data)).toStr)) :=
  ⟨by decide,
   upload_file_string_and_path_agree sampleSync ("/r/a/b.txt".data)
     (by decide)⟩

/-- C2 counterexample: two events of different kinds referencing the
same out-of-root path fail with literally the same error value, so the
failure carries the offending path but not the event kind: the handlers
propagate the bare `ValueError` raised by `relative_to` rather than a
wrapper recording which event was being processed. -/
theorem event_error_lacks_event_kind :
    (EventKind.created ≠ EventKind.deleted) ∧
    dispatch sampleSync ⟨.created, false, "/zz/f.txt".data, []⟩ =
      ⟨sampleSync, [],
       some (.valueError (parsePath ("/zz/f.txt".data)) sampleRoot)⟩ ∧
    dispatch sampleSync ⟨.deleted, false, "/zz/f.txt".data, []⟩ =
      ⟨sampleSync, [],
       some (.valueError (parsePath ("/zz/f.txt".data)) sampleRoot)⟩ :=
  ⟨by decide, by decide, by decide⟩

/-- C2 amended: whenever processing an event fails, no operation is
appended and no log record is emitted (all-or-nothing per event, also
for Moved events whose destination fails after the source resolved), and
the propagated error is the `ValueError` from `relative_to` carrying the
offending event path and the watch root, but no event kind. -/
theorem resolution_failure_is_all_or_nothing (m : MockFTPSync) (ev : Event)
    (he : (dispatch m ev).error.isSome = true) :
    (dispatch m ev).sync = m ∧ (dispatch m ev).logs = [] ∧
    ((dispatch m ev).error =
        some (.valueError (parsePath ev.src_path) m.local_path) ∨
      (dispatch m ev).error =
        some (.valueError (parsePath ev.dest_path) m.local_path)) := by
  obtain ⟨k, dir, sp, dp⟩ := ev
  dsimp only at he ⊢
  cases k with
  | created =>
    simp only [dispatch, on_created] at he ⊢
    cases dir with
    | true =>
      rw [if_pos rfl] at he ⊢
      cases hrt : (parsePath sp).relative_to m.local_path with
      | error e =>
        obtain ⟨rfl, _⟩ := relative_to_eq_error hrt
        simp [hrt]
      | ok rel => simp [hrt] at he
    | false =>
      rw [if_neg (by simp)] at he ⊢
      simp only [MockFTPSync.upload_file, StrOrPath.toPath] at he ⊢
      cases hrt : (parsePath sp).relative_to m.local_path with
      | error e =>
        obtain ⟨rfl, _⟩ := relative_to_eq_error hrt
        simp [hrt]
      | ok rel => simp [hrt] at he
  | modified =>
    simp only [dispatch, on_modified] at he ⊢
    cases dir with
    | true => simp at he
    | false =>
      rw [if_neg (by simp)] at he ⊢
      simp only [MockFTPSync.upload_file, StrOrPath.toPath] at he ⊢
      cases hrt : (parsePath sp).relative_to m.local_path with
      | error e =>
        obtain ⟨rfl, _⟩ := relative_to_eq_error hrt
        simp [hrt]
      | ok rel => simp [hrt] at he
  | deleted =>
    simp only [dispatch, on_deleted] at he ⊢
    cases dir with
    | true => simp at he
    | false =>
      rw [if_neg (by simp)] at he ⊢
      cases hrt : (parsePath sp).relative_to m.local_path with
      | error e =>
        obtain ⟨rfl, _⟩ := relative_to_eq_error hrt
        simp [hrt]
      | ok rel => simp [hrt] at he
  | moved =>
    simp only [dispatch, on_moved] at he ⊢
    cases hrt1 : (parsePath sp).relative_to m.local_path with
    | error e =>
      obtain ⟨rfl, _⟩ := relative_to_eq_error hrt1
      simp [hrt1]
    | ok srcRel =>
      cases hrt2 : (parsePath dp).relative_to m.local_path with
      | error e =>
        obtain ⟨rfl, _⟩ := relative_to_eq_error hrt2
        simp [hrt1, hrt2]
      | ok destRel =>
        simp only [hrt1, hrt2] at he
        cases dir with
        | true => simp at he
        | false =>
          rw [if_neg (by simp)] at he
          simp only [MockFTPSync.upload_file, StrOrPath.toPath,
            MockFTPSync.delete_file, hrt2] at he
          simp at he
  | other => simp [dispatch] at he

/-- C2 amended witness: a Moved file event whose source resolves but
whose destination `/zz/new.txt` is outside the sample root: nothing is
recorded and the error names the destination path. -/
theorem resolution_failure_is_all_or_nothing_w :
    ((dispatch sampleSync
        ⟨.moved, false, "/r/old.txt".data, "/zz/new.txt".data⟩).error.isSome
      = true) ∧
    ((dispatch sampleSync
        ⟨.moved, false, "/r/old.txt".data, "/zz/new.txt".data⟩).sync =
        sampleSync ∧
      (dispatch sampleSync
        ⟨.moved, false, "/r/old.txt".data, "/zz/new.txt".data⟩).logs = [] ∧
      ((dispatch sampleSync
          ⟨.moved, false, "/r/old.txt".data, "/zz/new.txt".data⟩).error =
          some (.valueError (parsePath ("/r/old.txt".data))
            sampleSync.local_path) ∨
        (dispatch sampleSync
          ⟨.moved, false, "/r/old.txt".data, "/zz/new.txt".data⟩).error =
          some (.valueError (parsePath ("/zz/new.txt".data))
            sampleSync.local_path))) :=
  ⟨by decide,
   resolution_failure_is_all_or_nothing sampleSync
     ⟨.moved, false, "/r/old.txt".data, "/zz/new.txt".data⟩ (by decide)⟩

/-- C3 counterexample: a Created directory event at `/r/b/../c`, which
is under the sample watch root `/r` in the lexical sense the code
implements, is processed without error, yet the emitted remote path
`b/../c` contains a `..` segment and hence escapes the root when
interpreted by the remote side. -/
theorem emitted_remote_with_dotdot :
    dispatch sampleSync ⟨.created, true, "/r/b/../c".data, []⟩ =
      ⟨{ sampleSync with operations := [.create_dir ("b/../c".data)] },
       [.createdDirectory ("b/../c".data)], none⟩ ∧
    ¬ cleanRel ("b/../c".data) :=
  ⟨by decide, by decide⟩

/-- C3 amended: for every event processed without error, every newly
emitted operation's remote path has no leading separator,
unconditionally; and it has no `..` segment provided the event's own
path strings contain no `..` segment (without that proviso the emitted
remote path inherits the `..` segments of the event path, as the
counterexample shows). -/
theorem emitted_remotes_clean_of_dotdot_free (m : MockFTPSync) (ev : Event)
    (he : (dispatch m ev).error = none) :
    ∀ op ∈ (dispatch m ev).sync.operations,
      op ∈ m.operations ∨
        (¬ startsWithSlash op.remote ∧
          (['.', '.'] ∉ splitOnSlash ev.src_path →
            ['.', '.'] ∉ splitOnSlash ev.dest_path →
            ¬ hasDotDotSegment op.remote)) := by
  obtain ⟨k, dir, sp, dp⟩ := ev
  dsimp only at he ⊢
  cases k with
  | created =>
    simp only [dispatch, on_created] at he ⊢
    cases dir with
    | true =>
      rw [if_pos rfl] at he ⊢
      cases hrt : (parsePath sp).relative_to m.local_path with
      | error e => simp [hrt] at he
      | ok rel =>
        simp only [hrt, MockFTPSync.create_remote_directory]
        intro op hop
        rcases List.mem_append.mp hop with h1 | h1
        · exact Or.inl h1
        · right
          rw [List.mem_singleton.mp h1]
          obtain ⟨h2, h3⟩ := remote_clean_of_relative_to hrt
          exact ⟨h2, fun hs _ => h3 hs⟩
    | false =>
      rw [if_neg (by simp)] at he ⊢
      simp only [MockFTPSync.upload_file, StrOrPath.toPath] at he ⊢
      cases hrt : (parsePath sp).relative_to m.local_path with
      | error e => simp [hrt] at he
      | ok rel =>
        simp only [hrt]
        intro op hop
        rcases List.mem_append.mp hop with h1 | h1
        · exact Or.inl h1
        · right
          rw [List.mem_singleton.mp h1]
          obtain ⟨h2, h3⟩ := remote_clean_of_relative_to hrt
          exact ⟨h2, fun hs _ => h3 hs⟩
  | modified =>
    simp only [dispatch, on_modified] at he ⊢
    cases dir with
    | true =>
      rw [if_pos rfl] at he ⊢
      intro op hop
      exact Or.inl hop
    | false =>
      rw [if_neg (by simp)] at he ⊢
      simp only [MockFTPSync.upload_file, StrOrPath.toPath] at he ⊢
      cases hrt : (parsePath sp).relative_to m.local_path with
      | error e => simp [hrt] at he
      | ok rel =>
        simp only [hrt]
        intro op hop
        rcases List.mem_append.mp hop with h1 | h1
        · exact Or.inl h1
        · right
          rw [List.mem_singleton.mp h1]
          obtain ⟨h2, h3⟩ := remote_clean_of_relative_to hrt
          exact ⟨h2, fun hs _ => h3 hs⟩
  | deleted =>
    simp only [dispatch, on_deleted] at he ⊢
    cases dir with
    | true =>
      rw [if_pos rfl] at he ⊢
      intro op hop
      exact Or.inl hop
    | false =>
      rw [if_neg (by simp)] at he ⊢
      cases hrt : (parsePath sp).relative_to m.local_path with
      | error e => simp [hrt] at he
      | ok rel =>
        simp only [hrt, MockFTPSync.delete_file]
        intro op hop
        rcases List.mem_append.mp hop with h1 | h1
        · exact Or.inl h1
        · right
          rw [List.mem_singleton.mp h1]
          obtain ⟨h2, h3⟩ := remote_clean_of_relative_to hrt
          exact ⟨h2, fun hs _ => h3 hs⟩
  | moved =>
    simp only [dispatch, on_moved] at he ⊢
    cases hrt1 : (parsePath sp).relative_to m.local_path with
    | error e => simp [hrt1] at he
    | ok srcRel =>
      cases hrt2 : (parsePath dp).relative_to m.local_path with
      | error e => simp [hrt1, hrt2] at he
      | ok destRel =>
        simp only [hrt1, hrt2, MockFTPSync.delete_file,
          MockFTPSync.create_remote_directory, MockFTPSync.upload_file,
          StrOrPath.toPath] at he ⊢
        cases dir with
        | true =>
          rw [if_pos rfl] at he ⊢
          intro op hop
          rcases List.mem_append.mp hop with h1 | h1
          · rcases List.mem_append.mp h1 with h2 | h2
            · exact Or.inl h2
            · right
              rw [List.mem_singleton.mp h2]
              obtain ⟨h3, h4⟩ := remote_clean_of_relative_to hrt1
              exact ⟨h3, fun hs _ => h4 hs⟩
          · right
            rw [List.mem_singleton.mp h1]
            obtain ⟨h3, h4⟩ := remote_clean_of_relative_to hrt2
            exact ⟨h3, fun _ hd => h4 hd⟩
        | false =>
          rw [if_neg (by simp)] at he ⊢
          simp only [hrt2] at he ⊢
          intro op hop
          rcases List.mem_append.mp hop with h1 | h1
          · rcases List.mem_append.mp h1 with h2 | h2
            · exact Or.inl h2
            · right
              rw [List.mem_singleton.mp h2]
              obtain ⟨h3, h4⟩ := remote_clean_of_relative_to hrt1
              exact ⟨h3, fun hs _ => h4 hs⟩
          · right
            rw [List.mem_singleton.mp h1]
            obtain ⟨h3, h4⟩ := remote_clean_of_relative_to hrt2
            exact ⟨h3, fun _ hd => h4 hd⟩
  | other =>
    simp only [dispatch]
    intro op hop
    exact Or.inl hop

/-- C3 amended witness: a concrete Moved file event processed without
error; every emitted operation satisfies the cleanliness conclusion. -/
theorem emitted_remotes_clean_of_dotdot_free_w :
    ((dispatch sampleSync
        ⟨.moved, false, "/r/old.txt".data, "/r/sub/new.txt".data⟩).error
      = none) ∧
    ∀ op ∈ (dispatch sampleSync
        ⟨.moved, false, "/r/old.txt".data,
          "/r/sub/new.txt".data⟩).sync.operations,
      op ∈ sampleSync.operations ∨
        (¬ startsWithSlash op.remote ∧
          (['.', '.'] ∉ splitOnSlash ("/r/old.txt".data) →
            ['.', '.'] ∉ splitOnSlash ("/r/sub/new.txt".data) →
            ¬ hasDotDotSegment op.remote)) :=
  ⟨by decide,
   emitted_remotes_clean_of_dotdot_free sampleSync
     ⟨.moved, false, "/r/old.txt".data, "/r/sub/new.txt".data⟩
     (by decide)⟩
